import Mathlib

/-!
Verification of the node-qiwi-api wallet client (src/lib/index.js) against its
natural-language specification.

Modelling conventions:
* JavaScript values are modelled by `JsVal`.  The code only uses loose
  comparisons (`!=`, `==`), so `null` and `undefined` are distinguished as
  values but both count as "nullish" wherever the code compares loosely
  against `null`/`undefined`.
* A thrown JavaScript exception is modelled by `JsThrow`: a `TypeError`
  raised by a member access on a nullish value, or an explicitly thrown
  `Error` object.
* The injected HTTP transport (the external `request` library) is a function
  from a request descriptor to a transport result.  Per the spec the
  collaborator delivers a transport-level error together with the decoded
  JSON body.
* Each library operation is embedded as a Lean function returning an
  `OpResult`: the HTTP requests issued (in order), the completion-callback
  invocations (in order, each an `(error, data)` pair), and the exception
  escaping the operation, if any.
-/

namespace Qiwi

/-- Model of a JavaScript value as used by the library: `null`, `undefined`,
strings, numbers, booleans, `Error` objects (identified by their message),
and plain objects as ordered key/value lists (`objNil`/`objCons`). -/
inductive JsVal where
  | jsNull
  | jsUndefined
  | str (s : String)
  | num (n : Int)
  | boolean (b : Bool)
  | errObj (message : String)
  | objNil
  | objCons (key : String) (value : JsVal) (rest : JsVal)
deriving DecidableEq, Repr

/-- True exactly for `null` and `undefined` — the values caught by the
loose comparisons `x != null` / `x != undefined` used throughout the code. -/
def isNullish : JsVal → Bool
  | .jsNull => true
  | .jsUndefined => true
  | _ => false

/-- JavaScript truthiness, as used by `if (err || ...)`. -/
def truthy : JsVal → Bool
  | .jsNull => false
  | .jsUndefined => false
  | .str s => decide (s ≠ "")
  | .num n => decide (n ≠ 0)
  | .boolean b => b
  | .errObj _ => true
  | .objNil => true
  | .objCons _ _ _ => true

/-- Property lookup on a JavaScript value that is known not to be nullish
(total: returns `undefined` when the property is absent or the value is a
primitive without that property; `Error` objects expose `message`). -/
def jsGet : JsVal → String → JsVal
  | .objCons k v rest, field => if k = field then v else jsGet rest field
  | .errObj m, field => if field = "message" then .str m else .jsUndefined
  | _, _ => .jsUndefined

/-- JavaScript string conversion, as performed by template-literal
interpolation. -/
def jsToString : JsVal → String
  | .jsNull => "null"
  | .jsUndefined => "undefined"
  | .str s => s
  | .num n => toString n
  | .boolean b => if b then "true" else "false"
  | .errObj m => "Error: " ++ m
  | .objNil => "[object Object]"
  | .objCons _ _ _ => "[object Object]"

/-- Build a JavaScript object literal from a list of key/value pairs. -/
def mkObj : List (String × JsVal) → JsVal
  | [] => .objNil
  | (k, v) :: rest => .objCons k v (mkObj rest)

/-- A JavaScript exception escaping an operation: either a `TypeError` from
dereferencing a nullish value, or an explicitly thrown `Error`. -/
inductive JsThrow where
  | typeError (message : String)
  | errorThrown (value : JsVal)
deriving DecidableEq, Repr

/-- Member access `v.field` as an effectful operation: throws a `TypeError`
when `v` is nullish, otherwise returns the property value. -/
def getField (v : JsVal) (field : String) : Except JsThrow JsVal :=
  if isNullish v then
    .error (.typeError ("Cannot read properties of " ++ jsToString v ++ " (reading " ++ field ++ ")"))
  else
    .ok (jsGet v field)

/-- Loose equality `v == s` against a string literal, for the literals the
code compares with (only the status code string "2").  A number equals the
string when the string is its decimal representation; booleans convert to
0/1; nullish values and objects never equal "2". -/
def jsLooseEqStr (v : JsVal) (s : String) : Bool :=
  match v with
  | .str t => decide (t = s)
  | .num n => decide (toString n = s)
  | .boolean b => decide (toString (if b then (1 : Int) else 0) = s)
  | _ => false

/-- Embedding of `processRequestCallback(error, body, callback)`
(src/lib/index.js lines 613–621).  The transport error is an
`Option String` (the message of the `Error` object handed over by the HTTP
collaborator; `none` models `null`).  Instead of invoking a callback the
embedding returns the `(err, data)` pair delivered to it, or the exception
thrown: `body.errorCode` is an unguarded member access, so a nullish body
raises a `TypeError` (the `!= undefined` comparison is loose, hence the
error branch is taken exactly when `errorCode` is non-nullish). -/
def processRequestCallback (error : Option String) (body : JsVal) :
    Except JsThrow (JsVal × JsVal) :=
  match error with
  | some msg => .ok (.errObj msg, .jsNull)
  | none =>
    match getField body "errorCode" with
    | .error thr => .error thr
    | .ok errorCode =>
      if isNullish errorCode then .ok (.jsNull, body) else .ok (body, .jsNull)

/-- An HTTP request descriptor, mirroring the `options` objects built by the
operations: verb, url, optional headers, optional query string, optional
JSON body, and the constant `json: true` flag.  Field order of the
anonymous constructor: method, url, headers, qs, body, json. -/
structure Request where
  method : String
  url : String
  headers : Option (List (String × String))
  qs : Option JsVal
  body : Option JsVal
  json : Bool
deriving DecidableEq, Repr

/-- What the HTTP collaborator hands to a request's completion handler: a
transport-level error (message of the `Error` object, or `none`) and the
decoded JSON body. -/
structure TransportResult where
  error : Option String
  body : JsVal
deriving DecidableEq, Repr

/-- The injected HTTP transport. -/
def Transport : Type := Request → TransportResult

/-- Observable outcome of one operation invocation: the requests issued in
order, the completion-callback invocations in order (each an `(err, data)`
pair), and the exception escaping the operation, if any. -/
structure OpResult where
  requests : List Request
  calls : List (JsVal × JsVal)
  thrown : Option JsThrow
deriving DecidableEq, Repr

/-- Issue one HTTP request and feed the normalized `(err, data)` pair to the
continuation `k` — the shape `request.VERB(options, (error, response) =>
processRequestCallback(error, response.body, cb))` shared by every
operation.  If normalization throws, the exception escapes and `k` never
runs. -/
def httpCallThen (t : Transport) (req : Request) (k : JsVal → JsVal → OpResult) : OpResult :=
  let res := t req
  match processRequestCallback res.error res.body with
  | .error thr => ⟨[req], [], some thr⟩
  | .ok (e, d) =>
    let r := k e d
    ⟨req :: r.requests, r.calls, r.thrown⟩

/-- Issue one HTTP request and deliver the normalized pair straight to the
caller's completion callback. -/
def httpCall (t : Transport) (req : Request) : OpResult :=
  httpCallThen t req (fun e d => ⟨[], [(e, d)], none⟩)

/-- The client's derived headers (src/lib/index.js lines 47–51). -/
def mkHeaders (token : String) : List (String × String) :=
  [("Accept", "application/json"),
   ("content-type", "application/json"),
   ("Authorization", "Bearer " ++ token)]

/-- The fixed base URL (src/lib/index.js line 56). -/
def apiUri : String := "https://edge.qiwi.com"

/-- Caller options for `toWallet`, `toMobilePhone` and `toCard`
(`{amount, comment, account}` per the jsdoc). -/
structure PaymentOptions where
  amount : JsVal
  comment : JsVal
  account : JsVal
deriving DecidableEq, Repr

/-- Caller options for `toBank` (`{amount, comment, account, account_type,
exp_date}` as read by the code). -/
structure BankPaymentOptions where
  amount : JsVal
  comment : JsVal
  account : JsVal
  account_type : JsVal
  exp_date : JsVal
deriving DecidableEq, Repr

/-- Caller options for `checkOnlineCommission` (`{account, amount}`). -/
structure CommissionOptions where
  account : JsVal
  amount : JsVal
deriving DecidableEq, Repr

/-- The JSON body common to the payment-sending operations, with the
`fields` object supplied by the caller: generated id
`(1000 * Date.now()).toString()`, fixed currency "643", fixed source
"account_643", fixed payment method `{type: "Account", accountId: "643"}`.
`now` is the value of `Date.now()` (milliseconds), made an explicit
parameter. -/
def paymentBodyWith (now : Nat) (amount comment : JsVal) (fields : JsVal) : JsVal :=
  mkObj [("id", .str (toString (1000 * now))),
         ("sum", mkObj [("amount", amount), ("currency", .str "643")]),
         ("source", .str "account_643"),
         ("paymentMethod", mkObj [("type", .str "Account"), ("accountId", .str "643")]),
         ("comment", comment),
         ("fields", fields)]

/-- Payment body whose `fields` object carries only the destination account
(`toWallet`, `toMobilePhone`, `toCard`). -/
def paymentBody (now : Nat) (amount comment account : JsVal) : JsVal :=
  paymentBodyWith now amount comment (mkObj [("account", account)])

/-- The payment-submission request `POST {apiUri}/sinap/terms/{terms}/payments`
with the client headers and the common payment body. -/
def paymentReq (token : String) (now : Nat) (terms : String)
    (amount comment account : JsVal) : Request :=
  ⟨"POST", apiUri ++ "/sinap/terms/" ++ terms ++ "/payments",
   some (mkHeaders token), none, some (paymentBody now amount comment account), true⟩

/-- `getIdentificationData(wallet, callback)` (lines 81–91). -/
def getIdentificationData (token wallet : String) (t : Transport) : OpResult :=
  httpCall t ⟨"GET", apiUri ++ "/identification/v1/persons/" ++ wallet ++ "/identification",
              some (mkHeaders token), none, none, true⟩

/-- `identifyWallet(wallet, requestOptions, callback)` (lines 100–111). -/
def identifyWallet (token wallet : String) (requestOptions : JsVal) (t : Transport) : OpResult :=
  httpCall t ⟨"POST", apiUri ++ "/identification/v1/persons/" ++ wallet ++ "/identification",
              some (mkHeaders token), none, some requestOptions, true⟩

/-- The request issued by `getAccountInfo` (lines 118–128). -/
def getAccountInfoReq (token : String) : Request :=
  ⟨"GET", apiUri ++ "/person-profile/v1/profile/current",
   some (mkHeaders token), none, none, true⟩

/-- `getAccountInfo(callback)` (lines 118–128). -/
def getAccountInfo (token : String) (t : Transport) : OpResult :=
  httpCall t (getAccountInfoReq token)

/-- `getBalance(callback)` (lines 135–145). -/
def getBalance (token : String) (t : Transport) : OpResult :=
  httpCall t ⟨"GET", apiUri ++ "/funding-sources/v1/accounts/current",
              some (mkHeaders token), none, none, true⟩

/-- The continuation `getOperationHistory` hands to `getAccountInfo`
(lines 154–173): a non-null first-step error is propagated unchanged, a
nullish payload yields the locally created "Can not retrieve account info"
error, otherwise the history request is issued with the person identifier
extracted from `data.authInfo.personId` (each member access may throw). -/
def getOperationHistoryCont (token : String) (requestOptions : JsVal) (t : Transport)
    (err data : JsVal) : OpResult :=
  if !isNullish err then
    ⟨[], [(err, .jsNull)], none⟩
  else if isNullish data then
    ⟨[], [(.errObj "Can not retrieve account info", .jsNull)], none⟩
  else
    match getField data "authInfo" with
    | .error thr => ⟨[], [], some thr⟩
    | .ok authInfo =>
      match getField authInfo "personId" with
      | .error thr => ⟨[], [], some thr⟩
      | .ok personId =>
        httpCall t ⟨"GET", apiUri ++ "/payment-history/v2/persons/" ++ jsToString personId ++ "/payments",
                    some (mkHeaders token), some requestOptions, none, true⟩

/-- `getOperationHistory(requestOptions, callback)` (lines 153–174). -/
def getOperationHistory (token : String) (requestOptions : JsVal) (t : Transport) : OpResult :=
  httpCallThen t (getAccountInfoReq token) (getOperationHistoryCont token requestOptions t)

/-- The continuation `getOperationStatistics` hands to `getAccountInfo`
(lines 183–204), identical to the history continuation up to the
`/payments/total` URL. -/
def getOperationStatisticsCont (token : String) (requestOptions : JsVal) (t : Transport)
    (err data : JsVal) : OpResult :=
  if !isNullish err then
    ⟨[], [(err, .jsNull)], none⟩
  else if isNullish data then
    ⟨[], [(.errObj "Can not retrieve account info", .jsNull)], none⟩
  else
    match getField data "authInfo" with
    | .error thr => ⟨[], [], some thr⟩
    | .ok authInfo =>
      match getField authInfo "personId" with
      | .error thr => ⟨[], [], some thr⟩
      | .ok personId =>
        httpCall t ⟨"GET", apiUri ++ "/payment-history/v2/persons/" ++ jsToString personId ++ "/payments/total",
                    some (mkHeaders token), some requestOptions, none, true⟩

/-- `getOperationStatistics(requestOptions, callback)` (lines 182–205). -/
def getOperationStatistics (token : String) (requestOptions : JsVal) (t : Transport) : OpResult :=
  httpCallThen t (getAccountInfoReq token) (getOperationStatisticsCont token requestOptions t)

/-- `getTransactionInfo(transactionId, callback)` (lines 214–224). -/
def getTransactionInfo (token transactionId : String) (t : Transport) : OpResult :=
  httpCall t ⟨"GET", apiUri ++ "/payment-history/v2/transactions/" ++ transactionId,
              some (mkHeaders token), none, none, true⟩

/-- `getReceipt(transactionId, requestOptions, callback)` (lines 233–244). -/
def getReceipt (token transactionId : String) (requestOptions : JsVal) (t : Transport) : OpResult :=
  httpCall t ⟨"GET", apiUri ++ "/payment-history/v1/transactions/" ++ transactionId ++ "/cheque/file",
              some (mkHeaders token), some requestOptions, none, true⟩

/-- `toWallet(requestOptions, callback)` (lines 252–278): posts directly to
the fixed qiwi provider 99. -/
def toWallet (token : String) (now : Nat) (ro : PaymentOptions) (t : Transport) : OpResult :=
  httpCall t (paymentReq token now "99" ro.amount ro.comment ro.account)

/-- The request issued by the internal helper `detectOperator(phone,
callback)` (lines 449–462).  `detectOperator` is a plain function, not a
method, so inside it `this` is not the client instance: `this.headers` is
`undefined` and the request carries no headers. -/
def detectOperatorReq (phone : String) : Request :=
  ⟨"POST", "https://qiwi.com/mobile/detect.action", none,
   some (mkObj [("phone", .str phone)]), none, true⟩

/-- The continuation `toMobilePhone` hands to `detectOperator` (lines
286–316): `if (err || data.code.value == "2") throw new Error(...)` throws
instead of using the callback (`||` short-circuits, so `data.code.value` is
only dereferenced when `err` is falsy); otherwise the payment is posted to
the provider found in `data.message`. -/
def toMobilePhoneCont (token : String) (now : Nat) (ro : PaymentOptions) (t : Transport)
    (err data : JsVal) : OpResult :=
  if truthy err then
    ⟨[], [], some (.errorThrown (.errObj "Can\x27t detect operator."))⟩
  else
    match getField data "code" with
    | .error thr => ⟨[], [], some thr⟩
    | .ok code =>
      match getField code "value" with
      | .error thr => ⟨[], [], some thr⟩
      | .ok v =>
        if jsLooseEqStr v "2" then
          ⟨[], [], some (.errorThrown (.errObj "Can\x27t detect operator."))⟩
        else
          httpCall t (paymentReq token now (jsToString (jsGet data "message"))
            ro.amount ro.comment ro.account)

/-- `toMobilePhone(requestOptions, callback)` (lines 285–317): resolves the
operator via `detectOperator('7' + requestOptions.account, ...)` and
continues with `toMobilePhoneCont`. -/
def toMobilePhone (token : String) (now : Nat) (ro : PaymentOptions) (t : Transport) : OpResult :=
  httpCallThen t (detectOperatorReq ("7" ++ jsToString ro.account))
    (toMobilePhoneCont token now ro t)

/-- The request issued by `detectCard(cardNumber, callback)` (lines
469–482); `detectCard` is a method, so its request does carry the client
headers. -/
def detectCardReq (token : String) (cardNumber : JsVal) : Request :=
  ⟨"POST", "https://qiwi.com/card/detect.action", some (mkHeaders token),
   some (mkObj [("cardNumber", cardNumber)]), none, true⟩

/-- `detectCard(cardNumber, callback)` (lines 469–482), also public. -/
def detectCard (token : String) (cardNumber : JsVal) (t : Transport) : OpResult :=
  httpCall t (detectCardReq token cardNumber)

/-- The continuation `toCard` hands to `detectCard` (lines 325–356): on
`err || data.code.value == "2"` it invokes
`callback(new Error('Wrong card number!', null))` — a single-argument call
(the `null` is the second argument of the `Error` constructor, not of the
callback), so the callback's data parameter is `undefined`; otherwise the
payment is posted to the provider found in `data.message`. -/
def toCardCont (token : String) (now : Nat) (ro : PaymentOptions) (t : Transport)
    (err data : JsVal) : OpResult :=
  if truthy err then
    ⟨[], [(.errObj "Wrong card number!", .jsUndefined)], none⟩
  else
    match getField data "code" with
    | .error thr => ⟨[], [], some thr⟩
    | .ok code =>
      match getField code "value" with
      | .error thr => ⟨[], [], some thr⟩
      | .ok v =>
        if jsLooseEqStr v "2" then
          ⟨[], [(.errObj "Wrong card number!", .jsUndefined)], none⟩
        else
          httpCall t (paymentReq token now (jsToString (jsGet data "message"))
            ro.amount ro.comment ro.account)

/-- `toCard(requestOptions, callback)` (lines 324–357): resolves the card
provider via `detectCard(requestOptions.account, ...)` and continues with
`toCardCont`. -/
def toCard (token : String) (now : Nat) (ro : PaymentOptions) (t : Transport) : OpResult :=
  httpCallThen t (detectCardReq token ro.account) (toCardCont token now ro t)

/-- `toBank(requestOptions, recipient, callback)` (lines 365–393): the
caller supplies the provider identifier; the body's `fields` object
additionally carries `account_type` and `exp_date`. -/
def toBank (token : String) (now : Nat) (ro : BankPaymentOptions) (recipient : JsVal)
    (t : Transport) : OpResult :=
  httpCall t ⟨"POST", apiUri ++ "/sinap/terms/" ++ jsToString recipient ++ "/payments",
              some (mkHeaders token), none,
              some (paymentBodyWith now ro.amount ro.comment
                (mkObj [("account", ro.account), ("account_type", ro.account_type),
                        ("exp_date", ro.exp_date)])), true⟩

/-- `checkCommission(recipient, callback)` (lines 400–409): the options
object has no `headers` entry. -/
def checkCommission (token : String) (recipient : JsVal) (t : Transport) : OpResult :=
  httpCall t ⟨"GET", apiUri ++ "/sinap/providers/" ++ jsToString recipient ++ "/form",
              none, none, none, true⟩

/-- `checkOnlineCommission(recipient, requestOptions, callback)` (lines
418–440): the options object has no `headers` entry either. -/
def checkOnlineCommission (token : String) (recipient : JsVal) (ro : CommissionOptions)
    (t : Transport) : OpResult :=
  httpCall t ⟨"POST", apiUri ++ "/sinap/providers/" ++ jsToString recipient ++ "/onlineCommission",
              none, none,
              some (mkObj [("account", ro.account),
                           ("paymentMethod", mkObj [("type", .str "Account"), ("accountId", .str "643")]),
                           ("purchaseTotals", mkObj [("total",
                              mkObj [("amount", ro.amount), ("currency", .str "643")])])]),
              true⟩

/-- `getCrossRates(callback)` (lines 489–499). -/
def getCrossRates (token : String) (t : Transport) : OpResult :=
  httpCall t ⟨"GET", apiUri ++ "/sinap/crossRates", some (mkHeaders token), none, none, true⟩

/-- `addWebHook(url, txnType, callback)` (lines 506–521). -/
def addWebHook (token url : String) (txnType : JsVal) (t : Transport) : OpResult :=
  httpCall t ⟨"PUT", apiUri ++ "/payment-notifier/v1/hooks", some (mkHeaders token),
              some (mkObj [("hookType", .num 1), ("param", .str url), ("txnType", txnType)]),
              none, true⟩

/-- `removeWebHook(hookId, callback)` (lines 528–538). -/
def removeWebHook (token hookId : String) (t : Transport) : OpResult :=
  httpCall t ⟨"DELETE", apiUri ++ "/payment-notifier/v1/hooks/" ++ hookId,
              some (mkHeaders token), none, none, true⟩

/-- `getWebHookSecret(hookId, callback)` (lines 545–555). -/
def getWebHookSecret (token hookId : String) (t : Transport) : OpResult :=
  httpCall t ⟨"GET", apiUri ++ "/payment-notifier/v1/hooks/" ++ hookId ++ "/key",
              some (mkHeaders token), none, none, true⟩

/-- `requestNewWebHookSecret(hookId, callback)` (lines 562–572). -/
def requestNewWebHookSecret (token hookId : String) (t : Transport) : OpResult :=
  httpCall t ⟨"POST", apiUri ++ "/payment-notifier/v1/hooks/" ++ hookId ++ "/newkey",
              some (mkHeaders token), none, none, true⟩

/-- `getActiveWebHook(callback)` (lines 579–589). -/
def getActiveWebHook (token : String) (t : Transport) : OpResult :=
  httpCall t ⟨"GET", apiUri ++ "/payment-notifier/v1/hooks/active",
              some (mkHeaders token), none, none, true⟩

/-- `testActiveWebHook(callback)` (lines 595–605). -/
def testActiveWebHook (token : String) (t : Transport) : OpResult :=
  httpCall t ⟨"GET", apiUri ++ "/payment-notifier/v1/hooks/test",
              some (mkHeaders token), none, none, true⟩

/-- A transport that answers every request the same way. -/
def constTransport (e : Option String) (b : JsVal) : Transport := fun _ => ⟨e, b⟩

/-- A delivered pair is mutually exclusive: a non-nullish error with a
nullish result, or a nullish error with a non-nullish result. -/
def exclusivePair (p : JsVal × JsVal) : Prop :=
  (isNullish p.1 = false ∧ isNullish p.2 = true) ∨
  (isNullish p.1 = true ∧ isNullish p.2 = false)

/-- Shape of every pair produced by `processRequestCallback`: a truthy error
with result exactly `null`, or error exactly `null` with a non-nullish
body. -/
def shapedPair (e d : JsVal) : Prop :=
  (truthy e = true ∧ d = .jsNull) ∨ (e = .jsNull ∧ isNullish d = false)

/-- Either the operation throws, having invoked the callback zero times, or
it returns normally, having invoked the callback exactly once with a
mutually exclusive pair. -/
def deliversOnceOrThrows (r : OpResult) : Prop :=
  (r.calls = [] ∧ r.thrown ≠ none) ∨
  (r.thrown = none ∧ ∃ p, r.calls = [p] ∧ exclusivePair p)

theorem not_nullish_of_truthy (v : JsVal) (h : truthy v = true) : isNullish v = false := by
  cases v <;> simp_all [truthy, isNullish]

theorem not_nullish_of_jsGet (b : JsVal) (f : String)
    (h : isNullish (jsGet b f) = false) : isNullish b = false := by
  cases b <;> simp_all [jsGet, isNullish]

theorem truthy_of_jsGet_not_nullish (b : JsVal) (f : String)
    (h : isNullish (jsGet b f) = false) : truthy b = true := by
  cases b <;> simp_all [jsGet, isNullish, truthy]

theorem jsGet_of_nullish (b : JsVal) (f : String) (h : isNullish b = true) :
    jsGet b f = .jsUndefined := by
  cases b <;> simp_all [jsGet, isNullish]

theorem processRequestCallback_shape (e : Option String) (b : JsVal) (p : JsVal × JsVal)
    (h : processRequestCallback e b = .ok p) : shapedPair p.1 p.2 := by
  obtain ⟨p1, p2⟩ := p
  cases e with
  | some msg =>
    simp only [processRequestCallback, Except.ok.injEq, Prod.mk.injEq] at h
    obtain ⟨h1, h2⟩ := h
    subst h1; subst h2
    left; exact ⟨rfl, rfl⟩
  | none =>
    simp only [processRequestCallback, getField] at h
    cases hb : isNullish b with
    | true => simp [hb] at h
    | false =>
      simp only [hb, Bool.false_eq_true, if_false] at h
      cases hec : isNullish (jsGet b "errorCode") with
      | true =>
        simp only [hec, if_true, Except.ok.injEq, Prod.mk.injEq] at h
        obtain ⟨h1, h2⟩ := h
        subst h1; subst h2
        right; exact ⟨rfl, hb⟩
      | false =>
        simp only [hec, Bool.false_eq_true, if_false, Except.ok.injEq, Prod.mk.injEq] at h
        obtain ⟨h1, h2⟩ := h
        subst h1; subst h2
        left; exact ⟨truthy_of_jsGet_not_nullish b _ hec, rfl⟩

theorem httpCallThen_ok (t : Transport) (req : Request) (k : JsVal → JsVal → OpResult)
    (e d : JsVal)
    (h : processRequestCallback (t req).error (t req).body = .ok (e, d)) :
    httpCallThen t req k = ⟨req :: (k e d).requests, (k e d).calls, (k e d).thrown⟩ := by
  simp only [httpCallThen, h]

theorem httpCallThen_throws (t : Transport) (req : Request) (k : JsVal → JsVal → OpResult)
    (thr : JsThrow)
    (h : processRequestCallback (t req).error (t req).body = .error thr) :
    httpCallThen t req k = ⟨[req], [], some thr⟩ := by
  simp only [httpCallThen, h]

theorem httpCall_ok (t : Transport) (req : Request) (e d : JsVal)
    (h : processRequestCallback (t req).error (t req).body = .ok (e, d)) :
    httpCall t req = ⟨[req], [(e, d)], none⟩ := by
  simp only [httpCall]
  rw [httpCallThen_ok t req _ e d h]

theorem httpCall_throws (t : Transport) (req : Request) (thr : JsThrow)
    (h : processRequestCallback (t req).error (t req).body = .error thr) :
    httpCall t req = ⟨[req], [], some thr⟩ := by
  simp only [httpCall]
  rw [httpCallThen_throws t req _ thr h]

theorem httpCall_requests (t : Transport) (req : Request) :
    (httpCall t req).requests = [req] := by
  cases h : processRequestCallback (t req).error (t req).body with
  | error thr => rw [httpCall_throws t req thr h]
  | ok p =>
    obtain ⟨e, d⟩ := p
    rw [httpCall_ok t req e d h]

theorem mem_httpCall_requests (t : Transport) (req : Request) (r : Request)
    (h : r ∈ (httpCall t req).requests) : r = req := by
  rw [httpCall_requests] at h
  simpa using h

theorem httpCall_delivers (t : Transport) (req : Request) :
    deliversOnceOrThrows (httpCall t req) := by
  cases h : processRequestCallback (t req).error (t req).body with
  | error thr =>
    rw [httpCall_throws t req thr h]
    left; exact ⟨rfl, by simp⟩
  | ok p =>
    obtain ⟨e, d⟩ := p
    have hs := processRequestCallback_shape _ _ _ h
    rw [httpCall_ok t req e d h]
    right
    refine ⟨rfl, (e, d), rfl, ?_⟩
    rcases hs with ⟨h1, h2⟩ | ⟨h1, h2⟩
    · left; exact ⟨not_nullish_of_truthy _ h1, by rw [h2]; rfl⟩
    · right; exact ⟨by rw [h1]; rfl, h2⟩

theorem httpCallThen_delivers (t : Transport) (req : Request) (k : JsVal → JsVal → OpResult)
    (hk : ∀ e d, shapedPair e d → deliversOnceOrThrows (k e d)) :
    deliversOnceOrThrows (httpCallThen t req k) := by
  cases h : processRequestCallback (t req).error (t req).body with
  | error thr =>
    rw [httpCallThen_throws t req k thr h]
    left; exact ⟨rfl, by simp⟩
  | ok p =>
    obtain ⟨e, d⟩ := p
    rw [httpCallThen_ok t req k e d h]
    have hd := hk e d (processRequestCallback_shape _ _ _ h)
    rcases hd with ⟨h1, h2⟩ | ⟨h1, h2⟩
    · left; exact ⟨h1, h2⟩
    · right; exact ⟨h1, h2⟩

theorem mem_httpCallThen_requests (t : Transport) (req : Request)
    (k : JsVal → JsVal → OpResult) (r : Request)
    (h : r ∈ (httpCallThen t req k).requests) :
    r = req ∨ ∃ e d, processRequestCallback (t req).error (t req).body = .ok (e, d)
      ∧ r ∈ (k e d).requests := by
  cases hp : processRequestCallback (t req).error (t req).body with
  | error thr =>
    rw [httpCallThen_throws t req k thr hp] at h
    left; simpa using h
  | ok p =>
    obtain ⟨e, d⟩ := p
    rw [httpCallThen_ok t req k e d hp] at h
    simp only [List.mem_cons] at h
    rcases h with h | h
    · left; exact h
    · right; exact ⟨e, d, rfl, h⟩

/-- C1: the shared normalization function `processRequestCallback`, applied
to a transport error and a response body, delivers `(error, null)` whenever
the transport error is non-null; otherwise, if the body has a defined
error-code field (non-nullish, by the loose `!= undefined` comparison), it
delivers `(body, null)`; otherwise (for a non-null body — see C10 for the
nullish case) it delivers `(null, body)`.  Every operation routes its
transport result through this single function: each operation is embedded
as `httpCall`/`httpCallThen` of its request descriptor, and the last two
conjuncts state that `httpCall` delivers to the callback exactly what
`processRequestCallback` produces on the transport result, or lets its
exception escape. -/
theorem c1_process_request_callback_normalizes :
    (∀ (msg : String) (body : JsVal),
      processRequestCallback (some msg) body = .ok (.errObj msg, .jsNull))
    ∧ (∀ body : JsVal, isNullish (jsGet body "errorCode") = false →
        processRequestCallback none body = .ok (body, .jsNull))
    ∧ (∀ body : JsVal, isNullish body = false → isNullish (jsGet body "errorCode") = true →
        processRequestCallback none body = .ok (.jsNull, body))
    ∧ (∀ (t : Transport) (req : Request) (e d : JsVal),
        processRequestCallback (t req).error (t req).body = .ok (e, d) →
        httpCall t req = ⟨[req], [(e, d)], none⟩)
    ∧ (∀ (t : Transport) (req : Request) (thr : JsThrow),
        processRequestCallback (t req).error (t req).body = .error thr →
        httpCall t req = ⟨[req], [], some thr⟩) := by
  refine ⟨fun msg body => rfl, ?_, ?_, httpCall_ok, httpCall_throws⟩
  · intro body h
    have hb := not_nullish_of_jsGet body "errorCode" h
    simp [processRequestCallback, getField, hb, h]
  · intro body hb hec
    simp [processRequestCallback, getField, hb, hec]

/-- Witness for C1 at concrete inputs: a transport error, a body carrying
an error code, and a plain success body. -/
theorem c1_witness :
    processRequestCallback (some "socket hang up") .jsNull
      = .ok (.errObj "socket hang up", .jsNull)
    ∧ processRequestCallback none (mkObj [("errorCode", .str "QWPRC-220")])
      = .ok (mkObj [("errorCode", .str "QWPRC-220")], .jsNull)
    ∧ processRequestCallback none (mkObj [("balance", .num 100)])
      = .ok (.jsNull, mkObj [("balance", .num 100)]) :=
  ⟨c1_process_request_callback_normalizes.1 "socket hang up" .jsNull,
   c1_process_request_callback_normalizes.2.1 _ (by decide),
   c1_process_request_callback_normalizes.2.2.1 _ (by decide) (by decide)⟩

/-- C7 counterexample: a body with a non-empty error-code field together
with a non-null transport error — the normalization output is
`(transport error, null)`, not `(body, null)`, so the "regardless of
whether a transport error also occurred" part of the claim is false. -/
theorem c7_counterexample :
    processRequestCallback (some "network failure") (mkObj [("errorCode", .str "QWPRC-220")])
      = .ok (.errObj "network failure", .jsNull)
    ∧ (JsVal.errObj "network failure", JsVal.jsNull)
      ≠ (mkObj [("errorCode", .str "QWPRC-220")], JsVal.jsNull) :=
  ⟨rfl, by decide⟩

/-- C7 (amended): for any response body with a non-empty error-code field
the normalization output is `(body, null)` provided no transport error
occurred on that call; when a transport error occurred, the transport
error takes precedence and the output is `(error, null)` regardless of the
body. -/
theorem c7_amended_error_code_body :
    (∀ (body : JsVal) (s : String), jsGet body "errorCode" = .str s → s ≠ "" →
      processRequestCallback none body = .ok (body, .jsNull))
    ∧ (∀ (msg : String) (body : JsVal),
      processRequestCallback (some msg) body = .ok (.errObj msg, .jsNull)) := by
  refine ⟨?_, fun msg body => rfl⟩
  intro body s hget hs
  have hec : isNullish (jsGet body "errorCode") = false := by rw [hget]; rfl
  have hb := not_nullish_of_jsGet body "errorCode" hec
  simp [processRequestCallback, getField, hb, hec]

/-- Witness for C7's amended theorem at concrete inputs. -/
theorem c7_witness :
    processRequestCallback none (mkObj [("errorCode", .str "QWPRC-254")])
      = .ok (mkObj [("errorCode", .str "QWPRC-254")], .jsNull)
    ∧ processRequestCallback (some "ETIMEDOUT") .objNil
      = .ok (.errObj "ETIMEDOUT", .jsNull) :=
  ⟨c7_amended_error_code_body.1 _ "QWPRC-254" (by decide) (by decide),
   c7_amended_error_code_body.2 "ETIMEDOUT" .objNil⟩

/-- C8: every invocation of `toWallet` posts exactly one request, whose
body sets `sum.currency` to "643", `source` to "account_643",
`paymentMethod.type` to "Account", and an `id` equal to the decimal string
of the current time in milliseconds multiplied by 1000
(`(1000 * Date.now()).toString()`). -/
theorem c8_to_wallet_request_body_fields (token : String) (now : Nat)
    (ro : PaymentOptions) (t : Transport) :
    (toWallet token now ro t).requests
      = [paymentReq token now "99" ro.amount ro.comment ro.account]
    ∧ (paymentReq token now "99" ro.amount ro.comment ro.account).method = "POST"
    ∧ (paymentReq token now "99" ro.amount ro.comment ro.account).body
      = some (paymentBody now ro.amount ro.comment ro.account)
    ∧ jsGet (jsGet (paymentBody now ro.amount ro.comment ro.account) "sum") "currency"
      = .str "643"
    ∧ jsGet (paymentBody now ro.amount ro.comment ro.account) "source" = .str "account_643"
    ∧ jsGet (jsGet (paymentBody now ro.amount ro.comment ro.account) "paymentMethod") "type"
      = .str "Account"
    ∧ jsGet (paymentBody now ro.amount ro.comment ro.account) "id"
      = .str (toString (1000 * now)) := by
  refine ⟨?_, rfl, rfl, rfl, rfl, rfl, rfl⟩
  unfold toWallet
  exact httpCall_requests t _

/-- C10: `processRequestCallback` assumes a non-null body whenever the
transport error is null: with a null or undefined decoded body it
dereferences `body.errorCode` without a guard, so a `TypeError` is thrown
and no callback is invoked (shown end to end on `getBalance` with a
transport-successful null-body response), rather than `(null, body)` or an
error pair being delivered. -/
theorem c10_null_body_throws :
    processRequestCallback none .jsNull
      = .error (.typeError "Cannot read properties of null (reading errorCode)")
    ∧ processRequestCallback none .jsUndefined
      = .error (.typeError "Cannot read properties of undefined (reading errorCode)")
    ∧ (getBalance "token" (constTransport none .jsNull)).calls = []
    ∧ (getBalance "token" (constTransport none .jsNull)).thrown
      = some (.typeError "Cannot read properties of null (reading errorCode)") :=
  ⟨rfl, rfl, rfl, rfl⟩

/-- C3: for the two dependent operations, if the initial `getAccountInfo`
step yields a non-null error, the second (history/statistics) HTTP request
is never issued — only the account-info request appears in the trace — and
the callback receives exactly that account-info error unchanged, with a
null result. -/
theorem c3_dependent_ops_propagate_account_info_error
    (token : String) (ro : JsVal) (t : Transport) (e d : JsVal)
    (h : processRequestCallback (t (getAccountInfoReq token)).error
          (t (getAccountInfoReq token)).body = .ok (e, d))
    (he : isNullish e = false) :
    getOperationHistory token ro t = ⟨[getAccountInfoReq token], [(e, .jsNull)], none⟩
    ∧ getOperationStatistics token ro t
      = ⟨[getAccountInfoReq token], [(e, .jsNull)], none⟩ := by
  have hcH : getOperationHistoryCont token ro t e d = ⟨[], [(e, .jsNull)], none⟩ := by
    unfold getOperationHistoryCont
    simp [he]
  have hcS : getOperationStatisticsCont token ro t e d = ⟨[], [(e, .jsNull)], none⟩ := by
    unfold getOperationStatisticsCont
    simp [he]
  constructor
  · unfold getOperationHistory
    rw [httpCallThen_ok t _ _ e d h, hcH]
  · unfold getOperationStatistics
    rw [httpCallThen_ok t _ _ e d h, hcS]

/-- Witness for C3: a transport whose account-info call fails with a
socket error; both dependent operations deliver that error unchanged and
issue no second request. -/
theorem c3_witness :
    getOperationHistory "tok" .jsNull (constTransport (some "socket hang up") .jsNull)
      = ⟨[getAccountInfoReq "tok"], [(.errObj "socket hang up", .jsNull)], none⟩
    ∧ getOperationStatistics "tok" .jsNull (constTransport (some "socket hang up") .jsNull)
      = ⟨[getAccountInfoReq "tok"], [(.errObj "socket hang up", .jsNull)], none⟩ :=
  c3_dependent_ops_propagate_account_info_error "tok" .jsNull
    (constTransport (some "socket hang up") .jsNull)
    (.errObj "socket hang up") .jsNull rfl rfl

/-- C9: for the two dependent operations, when the account-info step hands
its continuation a null error together with a nullish payload (`null`, or
`undefined` as decoded from an empty response body), the callback receives
the locally created "Can not retrieve account info" error with a null
result, and the second HTTP request is not issued (the continuation issues
no request at all). -/
theorem c9_dependent_ops_null_account_info_data
    (token : String) (ro : JsVal) (t : Transport) (err data : JsVal)
    (he : isNullish err = true) (hd : isNullish data = true) :
    getOperationHistoryCont token ro t err data
      = ⟨[], [(.errObj "Can not retrieve account info", .jsNull)], none⟩
    ∧ getOperationStatisticsCont token ro t err data
      = ⟨[], [(.errObj "Can not retrieve account info", .jsNull)], none⟩ := by
  unfold getOperationHistoryCont getOperationStatisticsCont
  simp [he, hd]

/-- Witness for C9 at the concrete inputs `err = null`, `data = undefined`. -/
theorem c9_witness :
    getOperationHistoryCont "tok" .jsNull (constTransport none .objNil) .jsNull .jsUndefined
      = ⟨[], [(.errObj "Can not retrieve account info", .jsNull)], none⟩
    ∧ getOperationStatisticsCont "tok" .jsNull (constTransport none .objNil) .jsNull .jsUndefined
      = ⟨[], [(.errObj "Can not retrieve account info", .jsNull)], none⟩ :=
  c9_dependent_ops_null_account_info_data "tok" .jsNull (constTransport none .objNil)
    .jsNull .jsUndefined rfl rfl

/-- C4: in `toMobilePhone`, if operator detection hands its continuation an
error (non-nullish — hence truthy, by `processRequestCallback_shape`) or a
detection payload whose `code.value` equals "2", the operation raises the
unrecoverable thrown `Error` — the completion callback is never invoked on
this path — and no payment request is issued: only the detection request
appears in the trace. -/
theorem c4_to_mobile_phone_throws_on_detection_failure
    (token : String) (now : Nat) (ro : PaymentOptions) (t : Transport) (e d : JsVal)
    (h : processRequestCallback
          (t (detectOperatorReq ("7" ++ jsToString ro.account))).error
          (t (detectOperatorReq ("7" ++ jsToString ro.account))).body = .ok (e, d))
    (hfail : isNullish e = false
      ∨ (e = .jsNull ∧ jsLooseEqStr (jsGet (jsGet d "code") "value") "2" = true)) :
    toMobilePhone token now ro t
      = ⟨[detectOperatorReq ("7" ++ jsToString ro.account)], [],
         some (.errorThrown (.errObj "Can\x27t detect operator."))⟩ := by
  have hs : shapedPair e d := processRequestCallback_shape _ _ _ h
  have hcont : toMobilePhoneCont token now ro t e d
      = ⟨[], [], some (.errorThrown (.errObj "Can\x27t detect operator."))⟩ := by
    rcases hfail with he | ⟨he, hv⟩
    · have ht : truthy e = true := by
        rcases hs with ⟨h1, _⟩ | ⟨h1, _⟩
        · exact h1
        · rw [h1] at he; simp [isNullish] at he
      unfold toMobilePhoneCont
      simp [ht]
    · have hd : isNullish d = false := by
        rcases hs with ⟨h1, _⟩ | ⟨_, h2⟩
        · rw [he] at h1; simp [truthy] at h1
        · exact h2
      have hcode : isNullish (jsGet d "code") = false := by
        cases hc : isNullish (jsGet d "code") with
        | false => rfl
        | true => rw [jsGet_of_nullish _ _ hc] at hv; simp [jsLooseEqStr] at hv
      unfold toMobilePhoneCont
      rw [he]
      simp [truthy, getField, hd, hcode, hv]
  unfold toMobilePhone
  rw [httpCallThen_ok t _ _ e d h, hcont]

/-- Witness for C4: a transport whose operator-detection call fails with a
DNS error; the operation throws, invokes no callback, and issues no payment
request. -/
theorem c4_witness :
    toMobilePhone "tok" 1700000000000 ⟨.num 10, .str "note", .str "9991234567"⟩
        (constTransport (some "getaddrinfo ENOTFOUND qiwi.com") .jsNull)
      = ⟨[detectOperatorReq ("7" ++ jsToString (.str "9991234567"))], [],
         some (.errorThrown (.errObj "Can\x27t detect operator."))⟩ :=
  c4_to_mobile_phone_throws_on_detection_failure "tok" 1700000000000
    ⟨.num 10, .str "note", .str "9991234567"⟩
    (constTransport (some "getaddrinfo ENOTFOUND qiwi.com") .jsNull)
    (.errObj "getaddrinfo ENOTFOUND qiwi.com") .jsNull rfl (Or.inl rfl)

/-- C5: in `toCard`, if card detection hands its continuation an error or a
detection payload whose `code.value` equals "2", the callback is invoked
exactly once, through the normal callback contract, with the distinct
wrong-card-number error and a nullish result (`undefined`: the source
invokes the callback with a single argument), no exception is raised, and
no payment request is issued: only the detection request appears in the
trace. -/
theorem c5_to_card_callback_error_on_detection_failure
    (token : String) (now : Nat) (ro : PaymentOptions) (t : Transport) (e d : JsVal)
    (h : processRequestCallback (t (detectCardReq token ro.account)).error
          (t (detectCardReq token ro.account)).body = .ok (e, d))
    (hfail : isNullish e = false
      ∨ (e = .jsNull ∧ jsLooseEqStr (jsGet (jsGet d "code") "value") "2" = true)) :
    toCard token now ro t
      = ⟨[detectCardReq token ro.account],
         [(.errObj "Wrong card number!", .jsUndefined)], none⟩ := by
  have hs : shapedPair e d := processRequestCallback_shape _ _ _ h
  have hcont : toCardCont token now ro t e d
      = ⟨[], [(.errObj "Wrong card number!", .jsUndefined)], none⟩ := by
    rcases hfail with he | ⟨he, hv⟩
    · have ht : truthy e = true := by
        rcases hs with ⟨h1, _⟩ | ⟨h1, _⟩
        · exact h1
        · rw [h1] at he; simp [isNullish] at he
      unfold toCardCont
      simp [ht]
    · have hd : isNullish d = false := by
        rcases hs with ⟨h1, _⟩ | ⟨_, h2⟩
        · rw [he] at h1; simp [truthy] at h1
        · exact h2
      have hcode : isNullish (jsGet d "code") = false := by
        cases hc : isNullish (jsGet d "code") with
        | false => rfl
        | true => rw [jsGet_of_nullish _ _ hc] at hv; simp [jsLooseEqStr] at hv
      unfold toCardCont
      rw [he]
      simp [truthy, getField, hd, hcode, hv]
  unfold toCard
  rw [httpCallThen_ok t _ _ e d h, hcont]

/-- Witness for C5: a transport whose card-detection call answers with a
"not detected" payload (`code.value = "2"`); the callback receives the
wrong-card-number error, nothing is thrown, and no payment request is
issued. -/
theorem c5_witness :
    toCard "tok" 1700000000000 ⟨.num 10, .str "note", .str "4111111111111111"⟩
        (constTransport none
          (mkObj [("code", mkObj [("value", .str "2")]), ("message", .jsNull)]))
      = ⟨[detectCardReq "tok" (.str "4111111111111111")],
         [(.errObj "Wrong card number!", .jsUndefined)], none⟩ :=
  c5_to_card_callback_error_on_detection_failure "tok" 1700000000000
    ⟨.num 10, .str "note", .str "4111111111111111"⟩
    (constTransport none
      (mkObj [("code", mkObj [("value", .str "2")]), ("message", .jsNull)]))
    .jsNull (mkObj [("code", mkObj [("value", .str "2")]), ("message", .jsNull)])
    rfl (Or.inr ⟨rfl, by decide⟩)

@[simp] theorem isNullish_jsNull : isNullish .jsNull = true := rfl

@[simp] theorem isNullish_jsUndefined : isNullish .jsUndefined = true := rfl

@[simp] theorem truthy_jsNull : truthy .jsNull = false := rfl

theorem getOperationHistoryCont_delivers (token : String) (ro : JsVal) (t : Transport)
    (e d : JsVal) (hs : shapedPair e d) :
    deliversOnceOrThrows (getOperationHistoryCont token ro t e d) := by
  rcases hs with ⟨h1, h2⟩ | ⟨h1, h2⟩
  · have he := not_nullish_of_truthy _ h1
    have heq : getOperationHistoryCont token ro t e d = ⟨[], [(e, .jsNull)], none⟩ := by
      unfold getOperationHistoryCont
      simp [he]
    rw [heq]
    right
    exact ⟨rfl, (e, .jsNull), rfl, Or.inl ⟨he, rfl⟩⟩
  · subst h1
    cases hai : isNullish (jsGet d "authInfo") with
    | true =>
      have heq : getOperationHistoryCont token ro t .jsNull d
          = ⟨[], [], some (.typeError ("Cannot read properties of "
              ++ jsToString (jsGet d "authInfo") ++ " (reading " ++ "personId" ++ ")"))⟩ := by
        unfold getOperationHistoryCont
        simp [h2, getField, hai]
      rw [heq]
      left
      exact ⟨rfl, by simp⟩
    | false =>
      have heq : getOperationHistoryCont token ro t .jsNull d
          = httpCall t ⟨"GET", apiUri ++ "/payment-history/v2/persons/"
              ++ jsToString (jsGet (jsGet d "authInfo") "personId") ++ "/payments",
              some (mkHeaders token), some ro, none, true⟩ := by
        unfold getOperationHistoryCont
        simp [h2, getField, hai]
      rw [heq]
      exact httpCall_delivers t _

theorem getOperationStatisticsCont_delivers (token : String) (ro : JsVal) (t : Transport)
    (e d : JsVal) (hs : shapedPair e d) :
    deliversOnceOrThrows (getOperationStatisticsCont token ro t e d) := by
  rcases hs with ⟨h1, h2⟩ | ⟨h1, h2⟩
  · have he := not_nullish_of_truthy _ h1
    have heq : getOperationStatisticsCont token ro t e d = ⟨[], [(e, .jsNull)], none⟩ := by
      unfold getOperationStatisticsCont
      simp [he]
    rw [heq]
    right
    exact ⟨rfl, (e, .jsNull), rfl, Or.inl ⟨he, rfl⟩⟩
  · subst h1
    cases hai : isNullish (jsGet d "authInfo") with
    | true =>
      have heq : getOperationStatisticsCont token ro t .jsNull d
          = ⟨[], [], some (.typeError ("Cannot read properties of "
              ++ jsToString (jsGet d "authInfo") ++ " (reading " ++ "personId" ++ ")"))⟩ := by
        unfold getOperationStatisticsCont
        simp [h2, getField, hai]
      rw [heq]
      left
      exact ⟨rfl, by simp⟩
    | false =>
      have heq : getOperationStatisticsCont token ro t .jsNull d
          = httpCall t ⟨"GET", apiUri ++ "/payment-history/v2/persons/"
              ++ jsToString (jsGet (jsGet d "authInfo") "personId") ++ "/payments/total",
              some (mkHeaders token), some ro, none, true⟩ := by
        unfold getOperationStatisticsCont
        simp [h2, getField, hai]
      rw [heq]
      exact httpCall_delivers t _

theorem toMobilePhoneCont_delivers (token : String) (now : Nat) (ro : PaymentOptions)
    (t : Transport) (e d : JsVal) (hs : shapedPair e d) :
    deliversOnceOrThrows (toMobilePhoneCont token now ro t e d) := by
  rcases hs with ⟨h1, h2⟩ | ⟨h1, h2⟩
  · have heq : toMobilePhoneCont token now ro t e d
        = ⟨[], [], some (.errorThrown (.errObj "Can\x27t detect operator."))⟩ := by
      unfold toMobilePhoneCont
      simp [h1]
    rw [heq]
    left
    exact ⟨rfl, by simp⟩
  · subst h1
    cases hcode : isNullish (jsGet d "code") with
    | true =>
      have heq : toMobilePhoneCont token now ro t .jsNull d
          = ⟨[], [], some (.typeError ("Cannot read properties of "
              ++ jsToString (jsGet d "code") ++ " (reading " ++ "value" ++ ")"))⟩ := by
        unfold toMobilePhoneCont
        simp [getField, h2, hcode]
      rw [heq]
      left
      exact ⟨rfl, by simp⟩
    | false =>
      cases hv : jsLooseEqStr (jsGet (jsGet d "code") "value") "2" with
      | true =>
        have heq : toMobilePhoneCont token now ro t .jsNull d
            = ⟨[], [], some (.errorThrown (.errObj "Can\x27t detect operator."))⟩ := by
          unfold toMobilePhoneCont
          simp [getField, h2, hcode, hv]
        rw [heq]
        left
        exact ⟨rfl, by simp⟩
      | false =>
        have heq : toMobilePhoneCont token now ro t .jsNull d
            = httpCall t (paymentReq token now (jsToString (jsGet d "message"))
                ro.amount ro.comment ro.account) := by
          unfold toMobilePhoneCont
          simp [getField, h2, hcode, hv]
        rw [heq]
        exact httpCall_delivers t _

theorem toCardCont_delivers (token : String) (now : Nat) (ro : PaymentOptions)
    (t : Transport) (e d : JsVal) (hs : shapedPair e d) :
    deliversOnceOrThrows (toCardCont token now ro t e d) := by
  rcases hs with ⟨h1, h2⟩ | ⟨h1, h2⟩
  · have he := not_nullish_of_truthy _ h1
    have heq : toCardCont token now ro t e d
        = ⟨[], [(.errObj "Wrong card number!", .jsUndefined)], none⟩ := by
      unfold toCardCont
      simp [h1]
    rw [heq]
    right
    exact ⟨rfl, (.errObj "Wrong card number!", .jsUndefined), rfl, Or.inl ⟨rfl, rfl⟩⟩
  · subst h1
    cases hcode : isNullish (jsGet d "code") with
    | true =>
      have heq : toCardCont token now ro t .jsNull d
          = ⟨[], [], some (.typeError ("Cannot read properties of "
              ++ jsToString (jsGet d "code") ++ " (reading " ++ "value" ++ ")"))⟩ := by
        unfold toCardCont
        simp [getField, h2, hcode]
      rw [heq]
      left
      exact ⟨rfl, by simp⟩
    | false =>
      cases hv : jsLooseEqStr (jsGet (jsGet d "code") "value") "2" with
      | true =>
        have heq : toCardCont token now ro t .jsNull d
            = ⟨[], [(.errObj "Wrong card number!", .jsUndefined)], none⟩ := by
          unfold toCardCont
          simp [getField, h2, hcode, hv]
        rw [heq]
        right
        exact ⟨rfl, (.errObj "Wrong card number!", .jsUndefined), rfl, Or.inl ⟨rfl, rfl⟩⟩
      | false =>
        have heq : toCardCont token now ro t .jsNull d
            = httpCall t (paymentReq token now (jsToString (jsGet d "message"))
                ro.amount ro.comment ro.account) := by
          unfold toCardCont
          simp [getField, h2, hcode, hv]
        rw [heq]
        exact httpCall_delivers t _

/-- C2 counterexample: calling `toMobilePhone` when the operator-detection
transport call fails invokes the completion callback zero times — not
exactly once — because the operation throws instead (cf. C4). -/
theorem c2_counterexample :
    (toMobilePhone "token" 1700000000000 ⟨.num 10, .str "test", .str "9991234567"⟩
        (constTransport (some "connect ECONNREFUSED") .jsNull)).calls = []
    ∧ (toMobilePhone "token" 1700000000000 ⟨.num 10, .str "test", .str "9991234567"⟩
        (constTransport (some "connect ECONNREFUSED") .jsNull)).thrown
      = some (.errorThrown (.errObj "Can\x27t detect operator.")) :=
  ⟨rfl, rfl⟩

/-- C2 (amended): for every public operation and every transport outcome,
the completion callback is invoked at most once; when the operation returns
normally it is invoked exactly once, with either a non-null error and a
nullish result or a null error and a non-null result — never both non-null;
the paths that throw (send-to-mobile-phone's detection-failure branch, and
any dereference of a nullish value such as a null decoded body, cf. C4 and
C10) invoke it zero times. -/
theorem c2_amended_callback_discipline :
    (∀ (token wallet : String) (t : Transport),
      deliversOnceOrThrows (getIdentificationData token wallet t))
    ∧ (∀ (token wallet : String) (ro : JsVal) (t : Transport),
      deliversOnceOrThrows (identifyWallet token wallet ro t))
    ∧ (∀ (token : String) (t : Transport), deliversOnceOrThrows (getAccountInfo token t))
    ∧ (∀ (token : String) (t : Transport), deliversOnceOrThrows (getBalance token t))
    ∧ (∀ (token : String) (ro : JsVal) (t : Transport),
      deliversOnceOrThrows (getOperationHistory token ro t))
    ∧ (∀ (token : String) (ro : JsVal) (t : Transport),
      deliversOnceOrThrows (getOperationStatistics token ro t))
    ∧ (∀ (token txid : String) (t : Transport),
      deliversOnceOrThrows (getTransactionInfo token txid t))
    ∧ (∀ (token txid : String) (ro : JsVal) (t : Transport),
      deliversOnceOrThrows (getReceipt token txid ro t))
    ∧ (∀ (token : String) (now : Nat) (ro : PaymentOptions) (t : Transport),
      deliversOnceOrThrows (toWallet token now ro t))
    ∧ (∀ (token : String) (now : Nat) (ro : PaymentOptions) (t : Transport),
      deliversOnceOrThrows (toMobilePhone token now ro t))
    ∧ (∀ (token : String) (now : Nat) (ro : PaymentOptions) (t : Transport),
      deliversOnceOrThrows (toCard token now ro t))
    ∧ (∀ (token : String) (now : Nat) (ro : BankPaymentOptions) (rcp : JsVal) (t : Transport),
      deliversOnceOrThrows (toBank token now ro rcp t))
    ∧ (∀ (token : String) (rcp : JsVal) (t : Transport),
      deliversOnceOrThrows (checkCommission token rcp t))
    ∧ (∀ (token : String) (rcp : JsVal) (ro : CommissionOptions) (t : Transport),
      deliversOnceOrThrows (checkOnlineCommission token rcp ro t))
    ∧ (∀ (token : String) (card : JsVal) (t : Transport),
      deliversOnceOrThrows (detectCard token card t))
    ∧ (∀ (token : String) (t : Transport), deliversOnceOrThrows (getCrossRates token t))
    ∧ (∀ (token url : String) (ty : JsVal) (t : Transport),
      deliversOnceOrThrows (addWebHook token url ty t))
    ∧ (∀ (token hid : String) (t : Transport),
      deliversOnceOrThrows (removeWebHook token hid t))
    ∧ (∀ (token hid : String) (t : Transport),
      deliversOnceOrThrows (getWebHookSecret token hid t))
    ∧ (∀ (token hid : String) (t : Transport),
      deliversOnceOrThrows (requestNewWebHookSecret token hid t))
    ∧ (∀ (token : String) (t : Transport), deliversOnceOrThrows (getActiveWebHook token t))
    ∧ (∀ (token : String) (t : Transport),
      deliversOnceOrThrows (testActiveWebHook token t)) := by
  refine ⟨fun token wallet t => httpCall_delivers t _,
          fun token wallet ro t => httpCall_delivers t _,
          fun token t => httpCall_delivers t _,
          fun token t => httpCall_delivers t _,
          fun token ro t => httpCallThen_delivers t _ _
            (fun e d hs => getOperationHistoryCont_delivers token ro t e d hs),
          fun token ro t => httpCallThen_delivers t _ _
            (fun e d hs => getOperationStatisticsCont_delivers token ro t e d hs),
          fun token txid t => httpCall_delivers t _,
          fun token txid ro t => httpCall_delivers t _,
          fun token now ro t => httpCall_delivers t _,
          fun token now ro t => httpCallThen_delivers t _ _
            (fun e d hs => toMobilePhoneCont_delivers token now ro t e d hs),
          fun token now ro t => httpCallThen_delivers t _ _
            (fun e d hs => toCardCont_delivers token now ro t e d hs),
          fun token now ro rcp t => httpCall_delivers t _,
          fun token rcp t => httpCall_delivers t _,
          fun token rcp ro t => httpCall_delivers t _,
          fun token card t => httpCall_delivers t _,
          fun token t => httpCall_delivers t _,
          fun token url ty t => httpCall_delivers t _,
          fun token hid t => httpCall_delivers t _,
          fun token hid t => httpCall_delivers t _,
          fun token hid t => httpCall_delivers t _,
          fun token t => httpCall_delivers t _,
          fun token t => httpCall_delivers t _⟩

theorem getOperationHistoryCont_headers (token : String) (ro : JsVal) (t : Transport)
    (e d : JsVal) (r : Request)
    (h : r ∈ (getOperationHistoryCont token ro t e d).requests) :
    r.headers = some (mkHeaders token) := by
  unfold getOperationHistoryCont at h
  cases h1 : isNullish e with
  | false => simp [h1] at h
  | true =>
    cases h2 : isNullish d with
    | true => simp [h1, h2] at h
    | false =>
      cases hai : isNullish (jsGet d "authInfo") with
      | true => simp [h1, h2, getField, hai] at h
      | false =>
        simp [h1, h2, getField, hai] at h
        have hr := mem_httpCall_requests _ _ _ h
        subst hr
        rfl

theorem getOperationStatisticsCont_headers (token : String) (ro : JsVal) (t : Transport)
    (e d : JsVal) (r : Request)
    (h : r ∈ (getOperationStatisticsCont token ro t e d).requests) :
    r.headers = some (mkHeaders token) := by
  unfold getOperationStatisticsCont at h
  cases h1 : isNullish e with
  | false => simp [h1] at h
  | true =>
    cases h2 : isNullish d with
    | true => simp [h1, h2] at h
    | false =>
      cases hai : isNullish (jsGet d "authInfo") with
      | true => simp [h1, h2, getField, hai] at h
      | false =>
        simp [h1, h2, getField, hai] at h
        have hr := mem_httpCall_requests _ _ _ h
        subst hr
        rfl

theorem toMobilePhoneCont_headers (token : String) (now : Nat) (ro : PaymentOptions)
    (t : Transport) (e d : JsVal) (r : Request)
    (h : r ∈ (toMobilePhoneCont token now ro t e d).requests) :
    r.headers = some (mkHeaders token) := by
  unfold toMobilePhoneCont at h
  cases h1 : truthy e with
  | true => simp [h1] at h
  | false =>
    cases h2 : isNullish d with
    | true => simp [h1, h2, getField] at h
    | false =>
      cases hcode : isNullish (jsGet d "code") with
      | true => simp [h1, h2, getField, hcode] at h
      | false =>
        cases hv : jsLooseEqStr (jsGet (jsGet d "code") "value") "2" with
        | true => simp [h1, h2, getField, hcode, hv] at h
        | false =>
          simp [h1, h2, getField, hcode, hv] at h
          have hr := mem_httpCall_requests _ _ _ h
          subst hr
          rfl

theorem toCardCont_headers (token : String) (now : Nat) (ro : PaymentOptions)
    (t : Transport) (e d : JsVal) (r : Request)
    (h : r ∈ (toCardCont token now ro t e d).requests) :
    r.headers = some (mkHeaders token) := by
  unfold toCardCont at h
  cases h1 : truthy e with
  | true => simp [h1] at h
  | false =>
    cases h2 : isNullish d with
    | true => simp [h1, h2, getField] at h
    | false =>
      cases hcode : isNullish (jsGet d "code") with
      | true => simp [h1, h2, getField, hcode] at h
      | false =>
        cases hv : jsLooseEqStr (jsGet (jsGet d "code") "value") "2" with
        | true => simp [h1, h2, getField, hcode, hv] at h
        | false =>
          simp [h1, h2, getField, hcode, hv] at h
          have hr := mem_httpCall_requests _ _ _ h
          subst hr
          rfl

/-- C6: every request descriptor built by any operation carries the
Authorization header derived from the configured token (the client header
list contains `("Authorization", "Bearer " + token)`), with the exception
of the commission-lookup requests (`checkCommission` and
`checkOnlineCommission`, whose options objects are built without a
`headers` entry) and the operator-detection request (`detectOperator`,
whose `this.headers` is not the client's headers because it is a plain
function), which are constructed without it.  `toMobilePhone`'s trace
consists of the headerless detection request plus — at most — an
authorized payment request; every other operation only issues authorized
requests. -/
theorem c6_authorization_header_coverage :
    (∀ token : String, ("Authorization", "Bearer " ++ token) ∈ mkHeaders token)
    ∧ (∀ (token wallet : String) (t : Transport),
      ∀ r ∈ (getIdentificationData token wallet t).requests,
        r.headers = some (mkHeaders token))
    ∧ (∀ (token wallet : String) (ro : JsVal) (t : Transport),
      ∀ r ∈ (identifyWallet token wallet ro t).requests,
        r.headers = some (mkHeaders token))
    ∧ (∀ (token : String) (t : Transport),
      ∀ r ∈ (getAccountInfo token t).requests, r.headers = some (mkHeaders token))
    ∧ (∀ (token : String) (t : Transport),
      ∀ r ∈ (getBalance token t).requests, r.headers = some (mkHeaders token))
    ∧ (∀ (token : String) (ro : JsVal) (t : Transport),
      ∀ r ∈ (getOperationHistory token ro t).requests,
        r.headers = some (mkHeaders token))
    ∧ (∀ (token : String) (ro : JsVal) (t : Transport),
      ∀ r ∈ (getOperationStatistics token ro t).requests,
        r.headers = some (mkHeaders token))
    ∧ (∀ (token txid : String) (t : Transport),
      ∀ r ∈ (getTransactionInfo token txid t).requests,
        r.headers = some (mkHeaders token))
    ∧ (∀ (token txid : String) (ro : JsVal) (t : Transport),
      ∀ r ∈ (getReceipt token txid ro t).requests, r.headers = some (mkHeaders token))
    ∧ (∀ (token : String) (now : Nat) (ro : PaymentOptions) (t : Transport),
      ∀ r ∈ (toWallet token now ro t).requests, r.headers = some (mkHeaders token))
    ∧ (∀ (token : String) (now : Nat) (ro : PaymentOptions) (t : Transport),
      ∀ r ∈ (toMobilePhone token now ro t).requests,
        r.headers = some (mkHeaders token)
          ∨ r = detectOperatorReq ("7" ++ jsToString ro.account))
    ∧ (∀ phone : String, (detectOperatorReq phone).headers = none)
    ∧ (∀ (token : String) (now : Nat) (ro : PaymentOptions) (t : Transport),
      ∀ r ∈ (toCard token now ro t).requests, r.headers = some (mkHeaders token))
    ∧ (∀ (token : String) (now : Nat) (ro : BankPaymentOptions) (rcp : JsVal) (t : Transport),
      ∀ r ∈ (toBank token now ro rcp t).requests, r.headers = some (mkHeaders token))
    ∧ (∀ (token : String) (rcp : JsVal) (t : Transport),
      ∀ r ∈ (checkCommission token rcp t).requests, r.headers = none)
    ∧ (∀ (token : String) (rcp : JsVal) (ro : CommissionOptions) (t : Transport),
      ∀ r ∈ (checkOnlineCommission token rcp ro t).requests, r.headers = none)
    ∧ (∀ (token : String) (card : JsVal) (t : Transport),
      ∀ r ∈ (detectCard token card t).requests, r.headers = some (mkHeaders token))
    ∧ (∀ (token : String) (t : Transport),
      ∀ r ∈ (getCrossRates token t).requests, r.headers = some (mkHeaders token))
    ∧ (∀ (token url : String) (ty : JsVal) (t : Transport),
      ∀ r ∈ (addWebHook token url ty t).requests, r.headers = some (mkHeaders token))
    ∧ (∀ (token hid : String) (t : Transport),
      ∀ r ∈ (removeWebHook token hid t).requests, r.headers = some (mkHeaders token))
    ∧ (∀ (token hid : String) (t : Transport),
      ∀ r ∈ (getWebHookSecret token hid t).requests, r.headers = some (mkHeaders token))
    ∧ (∀ (token hid : String) (t : Transport),
      ∀ r ∈ (requestNewWebHookSecret token hid t).requests,
        r.headers = some (mkHeaders token))
    ∧ (∀ (token : String) (t : Transport),
      ∀ r ∈ (getActiveWebHook token t).requests, r.headers = some (mkHeaders token))
    ∧ (∀ (token : String) (t : Transport),
      ∀ r ∈ (testActiveWebHook token t).requests, r.headers = some (mkHeaders token)) := by
  refine ⟨?_, ?_, ?_, ?_, ?_, ?_, ?_, ?_, ?_, ?_, ?_, ?_, ?_, ?_, ?_, ?_, ?_, ?_, ?_, ?_,
          ?_, ?_, ?_, ?_⟩
  · intro token
    simp [mkHeaders]
  · intro token wallet t r hr
    unfold getIdentificationData at hr
    have h2 := mem_httpCall_requests _ _ _ hr
    subst h2; rfl
  · intro token wallet ro t r hr
    unfold identifyWallet at hr
    have h2 := mem_httpCall_requests _ _ _ hr
    subst h2; rfl
  · intro token t r hr
    unfold getAccountInfo at hr
    have h2 := mem_httpCall_requests _ _ _ hr
    subst h2; rfl
  · intro token t r hr
    unfold getBalance at hr
    have h2 := mem_httpCall_requests _ _ _ hr
    subst h2; rfl
  · intro token ro t r hr
    unfold getOperationHistory at hr
    rcases mem_httpCallThen_requests _ _ _ _ hr with h | ⟨e, d, _, hm⟩
    · subst h; rfl
    · exact getOperationHistoryCont_headers token ro t e d r hm
  · intro token ro t r hr
    unfold getOperationStatistics at hr
    rcases mem_httpCallThen_requests _ _ _ _ hr with h | ⟨e, d, _, hm⟩
    · subst h; rfl
    · exact getOperationStatisticsCont_headers token ro t e d r hm
  · intro token txid t r hr
    unfold getTransactionInfo at hr
    have h2 := mem_httpCall_requests _ _ _ hr
    subst h2; rfl
  · intro token txid ro t r hr
    unfold getReceipt at hr
    have h2 := mem_httpCall_requests _ _ _ hr
    subst h2; rfl
  · intro token now ro t r hr
    unfold toWallet at hr
    have h2 := mem_httpCall_requests _ _ _ hr
    subst h2; rfl
  · intro token now ro t r hr
    unfold toMobilePhone at hr
    rcases mem_httpCallThen_requests _ _ _ _ hr with h | ⟨e, d, _, hm⟩
    · right; exact h
    · left; exact toMobilePhoneCont_headers token now ro t e d r hm
  · intro phone
    rfl
  · intro token now ro t r hr
    unfold toCard at hr
    rcases mem_httpCallThen_requests _ _ _ _ hr with h | ⟨e, d, _, hm⟩
    · subst h; rfl
    · exact toCardCont_headers token now ro t e d r hm
  · intro token now ro rcp t r hr
    unfold toBank at hr
    have h2 := mem_httpCall_requests _ _ _ hr
    subst h2; rfl
  · intro token rcp t r hr
    unfold checkCommission at hr
    have h2 := mem_httpCall_requests _ _ _ hr
    subst h2; rfl
  · intro token rcp ro t r hr
    unfold checkOnlineCommission at hr
    have h2 := mem_httpCall_requests _ _ _ hr
    subst h2; rfl
  · intro token card t r hr
    unfold detectCard at hr
    have h2 := mem_httpCall_requests _ _ _ hr
    subst h2; rfl
  · intro token t r hr
    unfold getCrossRates at hr
    have h2 := mem_httpCall_requests _ _ _ hr
    subst h2; rfl
  · intro token url ty t r hr
    unfold addWebHook at hr
    have h2 := mem_httpCall_requests _ _ _ hr
    subst h2; rfl
  · intro token hid t r hr
    unfold removeWebHook at hr
    have h2 := mem_httpCall_requests _ _ _ hr
    subst h2; rfl
  · intro token hid t r hr
    unfold getWebHookSecret at hr
    have h2 := mem_httpCall_requests _ _ _ hr
    subst h2; rfl
  · intro token hid t r hr
    unfold requestNewWebHookSecret at hr
    have h2 := mem_httpCall_requests _ _ _ hr
    subst h2; rfl
  · intro token t r hr
    unfold getActiveWebHook at hr
    have h2 := mem_httpCall_requests _ _ _ hr
    subst h2; rfl
  · intro token t r hr
    unfold testActiveWebHook at hr
    have h2 := mem_httpCall_requests _ _ _ hr
    subst h2; rfl

/-- Witness for C6 at concrete inputs: the account-info request carries the
derived Authorization header, while the commission-form request carries no
headers at all. -/
theorem c6_witness :
    (getAccountInfoReq "tok").headers = some (mkHeaders "tok")
    ∧ (⟨"GET", apiUri ++ "/sinap/providers/" ++ jsToString (.num 99) ++ "/form",
        none, none, none, true⟩ : Request).headers = none
    ∧ ("Authorization", "Bearer " ++ "tok") ∈ mkHeaders "tok" := by
  obtain ⟨hAuth, _, _, hAcc, _, _, _, _, _, _, _, _, _, _, hComm, _⟩ :=
    c6_authorization_header_coverage
  exact ⟨hAcc "tok" (constTransport none .objNil) _ (by decide),
         hComm "tok" (.num 99) (constTransport none .objNil) _ (by decide),
         hAuth "tok"⟩

end Qiwi
